import Mathlib

/-!
Verification of the kiwistand-cli signed-message submission pipeline.

The development shallowly embeds src/main.rs: the EIP-712 typed-message
encoding and local-wallet ECDSA signing (keccak-256, SHA-256, HMAC,
RFC 6979 nonce derivation, secp256k1), the configuration store, and the
command dispatcher for the submit / vote / config subcommands.  Machine
integers are modelled as Nat with explicit reduction modulo 2^64 (lanes),
2^32 (SHA words) or the relevant field/group order.
-/

set_option maxRecDepth 100000

namespace Kiwi

/-! ## Byte strings -/

/-- A byte string: a list of naturals, each intended to be below 256. -/
abbrev Bytes := List Nat

/-- All 64 bits set; used to reduce lane arithmetic modulo 2^64. -/
def mask64 : Nat := 0xFFFFFFFFFFFFFFFF

/-- Rotate a 64-bit lane left by s bits (s < 64). -/
def rotl64 (x s : Nat) : Nat := ((x <<< s) ||| (x >>> (64 - s))) &&& mask64

/-! ## Keccak-256 (legacy 0x01 padding, as used by Ethereum) -/

/-- The 24 keccak-f[1600] round constants. -/
def keccakRC : List Nat :=
  [1, 32898, 9223372036854808714, 9223372039002292224,
   32907, 2147483649, 9223372039002292353, 9223372036854808585,
   138, 136, 2147516425, 2147483658,
   2147516555, 9223372036854775947, 9223372036854808713, 9223372036854808579,
   9223372036854808578, 9223372036854775936, 32778, 9223372039002259466,
   9223372039002292353, 9223372036854808704, 2147483649, 9223372039002292232]

/-- The last seven lanes of the keccak state. -/
abbrev KTail7 := Nat × Nat × Nat × Nat × Nat × Nat × Nat

/-- Lanes 12 to 24 of the keccak state. -/
abbrev KTail13 := Nat × Nat × Nat × Nat × Nat × Nat × KTail7

/-- Lanes 6 to 24 of the keccak state. -/
abbrev KTail19 := Nat × Nat × Nat × Nat × Nat × Nat × KTail13

/-- The keccak state: 25 lanes of 64 bits, row-major (index x + 5*y). -/
abbrev KState := Nat × Nat × Nat × Nat × Nat × Nat × KTail19

/-- One keccak-f round (theta, rho, pi, chi, iota) on the lane tuple. -/
def keccakRound (st : KState) (rc : Nat) : KState :=
  match st with
  | (s0, s1, s2, s3, s4, s5, s6, s7, s8, s9, s10, s11, s12, s13, s14, s15, s16, s17, s18, s19, s20, s21, s22, s23, s24) =>
    let c0 := s0 ^^^ s5 ^^^ s10 ^^^ s15 ^^^ s20
    let c1 := s1 ^^^ s6 ^^^ s11 ^^^ s16 ^^^ s21
    let c2 := s2 ^^^ s7 ^^^ s12 ^^^ s17 ^^^ s22
    let c3 := s3 ^^^ s8 ^^^ s13 ^^^ s18 ^^^ s23
    let c4 := s4 ^^^ s9 ^^^ s14 ^^^ s19 ^^^ s24
    let d0 := c4 ^^^ rotl64 c1 1
    let d1 := c0 ^^^ rotl64 c2 1
    let d2 := c1 ^^^ rotl64 c3 1
    let d3 := c2 ^^^ rotl64 c4 1
    let d4 := c3 ^^^ rotl64 c0 1
    let a0 := s0 ^^^ d0
    let a1 := s1 ^^^ d1
    let a2 := s2 ^^^ d2
    let a3 := s3 ^^^ d3
    let a4 := s4 ^^^ d4
    let a5 := s5 ^^^ d0
    let a6 := s6 ^^^ d1
    let a7 := s7 ^^^ d2
    let a8 := s8 ^^^ d3
    let a9 := s9 ^^^ d4
    let a10 := s10 ^^^ d0
    let a11 := s11 ^^^ d1
    let a12 := s12 ^^^ d2
    let a13 := s13 ^^^ d3
    let a14 := s14 ^^^ d4
    let a15 := s15 ^^^ d0
    let a16 := s16 ^^^ d1
    let a17 := s17 ^^^ d2
    let a18 := s18 ^^^ d3
    let a19 := s19 ^^^ d4
    let a20 := s20 ^^^ d0
    let a21 := s21 ^^^ d1
    let a22 := s22 ^^^ d2
    let a23 := s23 ^^^ d3
    let a24 := s24 ^^^ d4
    let b0 := a0
    let b1 := rotl64 a6 44
    let b2 := rotl64 a12 43
    let b3 := rotl64 a18 21
    let b4 := rotl64 a24 14
    let b5 := rotl64 a3 28
    let b6 := rotl64 a9 20
    let b7 := rotl64 a10 3
    let b8 := rotl64 a16 45
    let b9 := rotl64 a22 61
    let b10 := rotl64 a1 1
    let b11 := rotl64 a7 6
    let b12 := rotl64 a13 25
    let b13 := rotl64 a19 8
    let b14 := rotl64 a20 18
    let b15 := rotl64 a4 27
    let b16 := rotl64 a5 36
    let b17 := rotl64 a11 10
    let b18 := rotl64 a17 15
    let b19 := rotl64 a23 56
    let b20 := rotl64 a2 62
    let b21 := rotl64 a8 55
    let b22 := rotl64 a14 39
    let b23 := rotl64 a15 41
    let b24 := rotl64 a21 2
    let e0 := b0 ^^^ ((b1 ^^^ mask64) &&& b2)
    let e1 := b1 ^^^ ((b2 ^^^ mask64) &&& b3)
    let e2 := b2 ^^^ ((b3 ^^^ mask64) &&& b4)
    let e3 := b3 ^^^ ((b4 ^^^ mask64) &&& b0)
    let e4 := b4 ^^^ ((b0 ^^^ mask64) &&& b1)
    let e5 := b5 ^^^ ((b6 ^^^ mask64) &&& b7)
    let e6 := b6 ^^^ ((b7 ^^^ mask64) &&& b8)
    let e7 := b7 ^^^ ((b8 ^^^ mask64) &&& b9)
    let e8 := b8 ^^^ ((b9 ^^^ mask64) &&& b5)
    let e9 := b9 ^^^ ((b5 ^^^ mask64) &&& b6)
    let e10 := b10 ^^^ ((b11 ^^^ mask64) &&& b12)
    let e11 := b11 ^^^ ((b12 ^^^ mask64) &&& b13)
    let e12 := b12 ^^^ ((b13 ^^^ mask64) &&& b14)
    let e13 := b13 ^^^ ((b14 ^^^ mask64) &&& b10)
    let e14 := b14 ^^^ ((b10 ^^^ mask64) &&& b11)
    let e15 := b15 ^^^ ((b16 ^^^ mask64) &&& b17)
    let e16 := b16 ^^^ ((b17 ^^^ mask64) &&& b18)
    let e17 := b17 ^^^ ((b18 ^^^ mask64) &&& b19)
    let e18 := b18 ^^^ ((b19 ^^^ mask64) &&& b15)
    let e19 := b19 ^^^ ((b15 ^^^ mask64) &&& b16)
    let e20 := b20 ^^^ ((b21 ^^^ mask64) &&& b22)
    let e21 := b21 ^^^ ((b22 ^^^ mask64) &&& b23)
    let e22 := b22 ^^^ ((b23 ^^^ mask64) &&& b24)
    let e23 := b23 ^^^ ((b24 ^^^ mask64) &&& b20)
    let e24 := b24 ^^^ ((b20 ^^^ mask64) &&& b21)
    (e0 ^^^ rc, e1, e2, e3, e4, e5, e6, e7, e8, e9, e10, e11, e12, e13, e14, e15, e16, e17, e18, e19, e20, e21, e22, e23, e24)

/-- Xor one 136-byte rate block into the first 17 lanes (little-endian). -/
def keccakXorBlock (st : KState) (block : Bytes) : KState :=
  match st with
  | (s0, s1, s2, s3, s4, s5, s6, s7, s8, s9, s10, s11, s12, s13, s14, s15, s16, s17, s18, s19, s20, s21, s22, s23, s24) =>
    let l0 := block.getD 0 0 ||| (block.getD 1 0 <<< 8) ||| (block.getD 2 0 <<< 16) ||| (block.getD 3 0 <<< 24) ||| (block.getD 4 0 <<< 32) ||| (block.getD 5 0 <<< 40) ||| (block.getD 6 0 <<< 48) ||| (block.getD 7 0 <<< 56)
    let l1 := block.getD 8 0 ||| (block.getD 9 0 <<< 8) ||| (block.getD 10 0 <<< 16) ||| (block.getD 11 0 <<< 24) ||| (block.getD 12 0 <<< 32) ||| (block.getD 13 0 <<< 40) ||| (block.getD 14 0 <<< 48) ||| (block.getD 15 0 <<< 56)
    let l2 := block.getD 16 0 ||| (block.getD 17 0 <<< 8) ||| (block.getD 18 0 <<< 16) ||| (block.getD 19 0 <<< 24) ||| (block.getD 20 0 <<< 32) ||| (block.getD 21 0 <<< 40) ||| (block.getD 22 0 <<< 48) ||| (block.getD 23 0 <<< 56)
    let l3 := block.getD 24 0 ||| (block.getD 25 0 <<< 8) ||| (block.getD 26 0 <<< 16) ||| (block.getD 27 0 <<< 24) ||| (block.getD 28 0 <<< 32) ||| (block.getD 29 0 <<< 40) ||| (block.getD 30 0 <<< 48) ||| (block.getD 31 0 <<< 56)
    let l4 := block.getD 32 0 ||| (block.getD 33 0 <<< 8) ||| (block.getD 34 0 <<< 16) ||| (block.getD 35 0 <<< 24) ||| (block.getD 36 0 <<< 32) ||| (block.getD 37 0 <<< 40) ||| (block.getD 38 0 <<< 48) ||| (block.getD 39 0 <<< 56)
    let l5 := block.getD 40 0 ||| (block.getD 41 0 <<< 8) ||| (block.getD 42 0 <<< 16) ||| (block.getD 43 0 <<< 24) ||| (block.getD 44 0 <<< 32) ||| (block.getD 45 0 <<< 40) ||| (block.getD 46 0 <<< 48) ||| (block.getD 47 0 <<< 56)
    let l6 := block.getD 48 0 ||| (block.getD 49 0 <<< 8) ||| (block.getD 50 0 <<< 16) ||| (block.getD 51 0 <<< 24) ||| (block.getD 52 0 <<< 32) ||| (block.getD 53 0 <<< 40) ||| (block.getD 54 0 <<< 48) ||| (block.getD 55 0 <<< 56)
    let l7 := block.getD 56 0 ||| (block.getD 57 0 <<< 8) ||| (block.getD 58 0 <<< 16) ||| (block.getD 59 0 <<< 24) ||| (block.getD 60 0 <<< 32) ||| (block.getD 61 0 <<< 40) ||| (block.getD 62 0 <<< 48) ||| (block.getD 63 0 <<< 56)
    let l8 := block.getD 64 0 ||| (block.getD 65 0 <<< 8) ||| (block.getD 66 0 <<< 16) ||| (block.getD 67 0 <<< 24) ||| (block.getD 68 0 <<< 32) ||| (block.getD 69 0 <<< 40) ||| (block.getD 70 0 <<< 48) ||| (block.getD 71 0 <<< 56)
    let l9 := block.getD 72 0 ||| (block.getD 73 0 <<< 8) ||| (block.getD 74 0 <<< 16) ||| (block.getD 75 0 <<< 24) ||| (block.getD 76 0 <<< 32) ||| (block.getD 77 0 <<< 40) ||| (block.getD 78 0 <<< 48) ||| (block.getD 79 0 <<< 56)
    let l10 := block.getD 80 0 ||| (block.getD 81 0 <<< 8) ||| (block.getD 82 0 <<< 16) ||| (block.getD 83 0 <<< 24) ||| (block.getD 84 0 <<< 32) ||| (block.getD 85 0 <<< 40) ||| (block.getD 86 0 <<< 48) ||| (block.getD 87 0 <<< 56)
    let l11 := block.getD 88 0 ||| (block.getD 89 0 <<< 8) ||| (block.getD 90 0 <<< 16) ||| (block.getD 91 0 <<< 24) ||| (block.getD 92 0 <<< 32) ||| (block.getD 93 0 <<< 40) ||| (block.getD 94 0 <<< 48) ||| (block.getD 95 0 <<< 56)
    let l12 := block.getD 96 0 ||| (block.getD 97 0 <<< 8) ||| (block.getD 98 0 <<< 16) ||| (block.getD 99 0 <<< 24) ||| (block.getD 100 0 <<< 32) ||| (block.getD 101 0 <<< 40) ||| (block.getD 102 0 <<< 48) ||| (block.getD 103 0 <<< 56)
    let l13 := block.getD 104 0 ||| (block.getD 105 0 <<< 8) ||| (block.getD 106 0 <<< 16) ||| (block.getD 107 0 <<< 24) ||| (block.getD 108 0 <<< 32) ||| (block.getD 109 0 <<< 40) ||| (block.getD 110 0 <<< 48) ||| (block.getD 111 0 <<< 56)
    let l14 := block.getD 112 0 ||| (block.getD 113 0 <<< 8) ||| (block.getD 114 0 <<< 16) ||| (block.getD 115 0 <<< 24) ||| (block.getD 116 0 <<< 32) ||| (block.getD 117 0 <<< 40) ||| (block.getD 118 0 <<< 48) ||| (block.getD 119 0 <<< 56)
    let l15 := block.getD 120 0 ||| (block.getD 121 0 <<< 8) ||| (block.getD 122 0 <<< 16) ||| (block.getD 123 0 <<< 24) ||| (block.getD 124 0 <<< 32) ||| (block.getD 125 0 <<< 40) ||| (block.getD 126 0 <<< 48) ||| (block.getD 127 0 <<< 56)
    let l16 := block.getD 128 0 ||| (block.getD 129 0 <<< 8) ||| (block.getD 130 0 <<< 16) ||| (block.getD 131 0 <<< 24) ||| (block.getD 132 0 <<< 32) ||| (block.getD 133 0 <<< 40) ||| (block.getD 134 0 <<< 48) ||| (block.getD 135 0 <<< 56)
    (s0 ^^^ l0, s1 ^^^ l1, s2 ^^^ l2, s3 ^^^ l3, s4 ^^^ l4, s5 ^^^ l5, s6 ^^^ l6, s7 ^^^ l7, s8 ^^^ l8, s9 ^^^ l9, s10 ^^^ l10, s11 ^^^ l11, s12 ^^^ l12, s13 ^^^ l13, s14 ^^^ l14, s15 ^^^ l15, s16 ^^^ l16, s17, s18, s19, s20, s21, s22, s23, s24)

/-- The full keccak-f[1600] permutation: 24 rounds. -/
def keccakF (st : KState) : KState := keccakRC.foldl keccakRound st

/-- Absorb a padded message block by block; fuel bounds the number of blocks. -/
def keccakAbsorb : Nat → KState → Bytes → KState
  | 0, st, _ => st
  | f + 1, st, m =>
    if m.isEmpty then st
    else keccakAbsorb f (keccakF (keccakXorBlock st (m.take 136))) (m.drop 136)

/-- The 8 bytes of a 64-bit lane, little-endian. -/
def laneBytes (x : Nat) : Bytes :=
  [x % 256, (x >>> 8) % 256, (x >>> 16) % 256, (x >>> 24) % 256, (x >>> 32) % 256,
   (x >>> 40) % 256, (x >>> 48) % 256, (x >>> 56) % 256]

/-- The all-zero keccak state. -/
def kInit : KState :=
  (0, 0, 0, 0, 0, 0, 0, 0, 0, 0, 0, 0, 0, 0, 0, 0, 0, 0, 0, 0, 0, 0, 0, 0, 0)

/-- Keccak-256 of a byte string (0x01 multi-rate padding, rate 136): absorb
the padded message and squeeze the first four lanes. -/
def keccak256 (msg : Bytes) : Bytes :=
  let padlen := 136 - msg.length % 136
  let pad := if padlen = 1 then [0x81] else 0x01 :: (List.replicate (padlen - 2) 0 ++ [0x80])
  let m := msg ++ pad
  let A := keccakAbsorb (m.length + 1) kInit m
  laneBytes A.1 ++ laneBytes A.2.1 ++ laneBytes A.2.2.1 ++ laneBytes A.2.2.2.1

/-! ## SHA-256 (used by the RFC 6979 deterministic nonce of the k256 signer) -/

/-- The 64 SHA-256 round constants. -/
def shaK : List Nat :=
  [1116352408, 1899447441, 3049323471, 3921009573, 961987163, 1508970993,
   2453635748, 2870763221, 3624381080, 310598401, 607225278, 1426881987,
   1925078388, 2162078206, 2614888103, 3248222580, 3835390401, 4022224774,
   264347078, 604807628, 770255983, 1249150122, 1555081692, 1996064986,
   2554220882, 2821834349, 2952996808, 3210313671, 3336571891, 3584528711,
   113926993, 338241895, 666307205, 773529912, 1294757372, 1396182291,
   1695183700, 1986661051, 2177026350, 2456956037, 2730485921, 2820302411,
   3259730800, 3345764771, 3516065817, 3600352804, 4094571909, 275423344,
   430227734, 506948616, 659060556, 883997877, 958139571, 1322822218,
   1537002063, 1747873779, 1955562222, 2024104815, 2227730452, 2361852424,
   2428436474, 2756734187, 3204031479, 3329325298]

/-- Mask to 32 bits. -/
def mask32 : Nat := 0xFFFFFFFF

/-- Rotate a 32-bit word right by s bits (s < 32). -/
def rotr32 (x s : Nat) : Nat := ((x >>> s) ||| (x <<< (32 - s))) &&& mask32

/-- Extend the first 16 schedule words to 64; the accumulator is kept reversed
(most recent word first). -/
def shaSchedule : Nat → List Nat → List Nat
  | 0, ws => ws.reverse
  | f + 1, ws =>
    let w15 := ws.getD 14 0
    let w2 := ws.getD 1 0
    let s0 := rotr32 w15 7 ^^^ rotr32 w15 18 ^^^ (w15 >>> 3)
    let s1 := rotr32 w2 17 ^^^ rotr32 w2 19 ^^^ (w2 >>> 10)
    shaSchedule f (((ws.getD 15 0 + s0 + ws.getD 6 0 + s1) &&& mask32) :: ws)

/-- One SHA-256 compression round on the (a,b,c,d,e,f,g,h) register tuple. -/
def shaStep (st : Nat × Nat × Nat × Nat × Nat × Nat × Nat × Nat) (kw : Nat × Nat) :
    Nat × Nat × Nat × Nat × Nat × Nat × Nat × Nat :=
  match st with
  | (a, b, c, d, e, f, g, h) =>
    let S1 := rotr32 e 6 ^^^ rotr32 e 11 ^^^ rotr32 e 25
    let ch := (e &&& f) ^^^ ((e ^^^ mask32) &&& g)
    let t1 := (h + S1 + ch + kw.1 + kw.2) &&& mask32
    let S0 := rotr32 a 2 ^^^ rotr32 a 13 ^^^ rotr32 a 22
    let mj := (a &&& b) ^^^ (a &&& c) ^^^ (b &&& c)
    let t2 := (S0 + mj) &&& mask32
    ((t1 + t2) &&& mask32, a, b, c, (d + t1) &&& mask32, e, f, g)

/-- Compress one 64-byte block into the 8-word chain value. -/
def shaCompress (H : List Nat) (block : List Nat) : List Nat :=
  let w0 := (List.range 16).map fun i =>
    (block.getD (4 * i) 0 <<< 24) ||| (block.getD (4 * i + 1) 0 <<< 16) |||
      (block.getD (4 * i + 2) 0 <<< 8) ||| block.getD (4 * i + 3) 0
  let w := shaSchedule 48 w0.reverse
  let init := (H.getD 0 0, H.getD 1 0, H.getD 2 0, H.getD 3 0, H.getD 4 0, H.getD 5 0,
    H.getD 6 0, H.getD 7 0)
  match (shaK.zip w).foldl shaStep init with
  | (a, b, c, d, e, f, g, h) =>
    [(H.getD 0 0 + a) &&& mask32, (H.getD 1 0 + b) &&& mask32, (H.getD 2 0 + c) &&& mask32,
     (H.getD 3 0 + d) &&& mask32, (H.getD 4 0 + e) &&& mask32, (H.getD 5 0 + f) &&& mask32,
     (H.getD 6 0 + g) &&& mask32, (H.getD 7 0 + h) &&& mask32]

/-- Fold the compression function over consecutive 64-byte blocks. -/
def shaBlocks : Nat → List Nat → List Nat → List Nat
  | 0, H, _ => H
  | f + 1, H, m =>
    if m.isEmpty then H else shaBlocks f (shaCompress H (m.take 64)) (m.drop 64)

/-- SHA-256 of a byte string. -/
def sha256 (msg : Bytes) : Bytes :=
  let L := msg.length
  let zeros := (120 - (L + 1) % 64) % 64
  let lenBytes := (List.range 8).map fun i => ((8 * L) >>> (8 * (7 - i))) % 256
  let m := msg ++ 0x80 :: List.replicate zeros 0 ++ lenBytes
  let H := shaBlocks (m.length + 1)
    [1779033703, 3144134277, 1013904242, 2773480762,
     1359893119, 2600822924, 528734635, 1541459225] m
  H.foldr (fun x acc =>
    (x >>> 24) % 256 :: (x >>> 16) % 256 :: (x >>> 8) % 256 :: x % 256 :: acc) []

/-- HMAC-SHA-256. -/
def hmacSha256 (key msg : Bytes) : Bytes :=
  let k0 := if key.length > 64 then sha256 key else key
  let k1 := k0 ++ List.replicate (64 - k0.length) 0
  sha256 ((k1.map fun b => b ^^^ 0x5c) ++ sha256 ((k1.map fun b => b ^^^ 0x36) ++ msg))

/-! ## secp256k1 and deterministic ECDSA (k256 signer used by ethers) -/

/-- The secp256k1 base field prime. -/
def secpP : Nat := 2 ^ 256 - 2 ^ 32 - 977

/-- The secp256k1 group order. -/
def secpN : Nat := 0xFFFFFFFFFFFFFFFFFFFFFFFFFFFFFFFEBAAEDCE6AF48A03BBFD25E8CD0364141

/-- The secp256k1 base point, in Jacobian coordinates. -/
def secpG : Nat × Nat × Nat :=
  (0x79BE667EF9DCBBAC55A06295CE870B07029BFCDB2DCE28D959F2815B16F81798,
   0x483ADA7726A3C4655DA4FBFC0E1108A8FD17B448A68554199C47D08FFB10D4B8, 1)

/-- Modular subtraction for operands already reduced below p. -/
def subMod (a b p : Nat) : Nat := (a + (p - b % p)) % p

/-- Modular exponentiation by binary splitting of the exponent, fuelled. -/
def powMod : Nat → Nat → Nat → Nat → Nat
  | 0, _, _, m => 1 % m
  | f + 1, b, e, m =>
    if e = 0 then 1 % m
    else
      let r := powMod f (b * b % m) (e / 2) m
      if e % 2 = 1 then r * b % m else r

/-- Modular inverse in a prime field, by Fermat. -/
def invMod (a p : Nat) : Nat := powMod 257 a (p - 2) p

/-- Point doubling in Jacobian coordinates (Z = 0 encodes infinity). -/
def jdouble (Q : Nat × Nat × Nat) : Nat × Nat × Nat :=
  match Q with
  | (X, Y, Z) =>
    if Z = 0 ∨ Y = 0 then (0, 1, 0)
    else
      let p := secpP
      let y2 := Y * Y % p
      let S := 4 * X * y2 % p
      let M := 3 * X * X % p
      let X2 := subMod (M * M % p) (2 * S % p) p
      let Y2 := subMod (M * subMod S X2 p % p) (8 * (y2 * y2 % p) % p) p
      (X2, Y2, 2 * Y * Z % p)

/-- Point addition in Jacobian coordinates. -/
def jadd (Q R : Nat × Nat × Nat) : Nat × Nat × Nat :=
  match Q, R with
  | (X1, Y1, Z1), (X2, Y2, Z2) =>
    if Z1 = 0 then (X2, Y2, Z2)
    else if Z2 = 0 then (X1, Y1, Z1)
    else
      let p := secpP
      let Z1s := Z1 * Z1 % p
      let Z2s := Z2 * Z2 % p
      let U1 := X1 * Z2s % p
      let U2 := X2 * Z1s % p
      let S1 := Y1 * (Z2s * Z2 % p) % p
      let S2 := Y2 * (Z1s * Z1 % p) % p
      if U1 = U2 then
        if S1 ≠ S2 then (0, 1, 0) else jdouble (X1, Y1, Z1)
      else
        let H := subMod U2 U1 p
        let Rr := subMod S2 S1 p
        let H2 := H * H % p
        let H3 := H2 * H % p
        let X3 := subMod (subMod (Rr * Rr % p) H3 p) (2 * (U1 * H2 % p) % p) p
        let Y3 := subMod (Rr * subMod (U1 * H2 % p) X3 p % p) (S1 * H3 % p) p
        (X3, Y3, H * (Z1 * Z2 % p) % p)

/-- Left-to-right double-and-add scalar multiplication over 256 bits. -/
def jmul (k : Nat) (Q : Nat × Nat × Nat) : Nat × Nat × Nat :=
  (List.range 256).foldl
    (fun acc j =>
      let d := jdouble acc
      if (k >>> (255 - j)) % 2 = 1 then jadd d Q else d)
    (0, 1, 0)

/-- Convert a Jacobian point to affine coordinates. -/
def toAffine (Q : Nat × Nat × Nat) : Nat × Nat :=
  match Q with
  | (X, Y, Z) =>
    let zi := invMod Z secpP
    let zi2 := zi * zi % secpP
    (X * zi2 % secpP, Y * (zi2 * zi % secpP) % secpP)

/-- Big-endian 32-byte encoding of a natural (low 256 bits). -/
def be32 (x : Nat) : Bytes := (List.range 32).map fun i => (x >>> (8 * (31 - i))) % 256

/-- Big-endian value of a byte string. -/
def natOfBE (l : Bytes) : Nat := l.foldl (fun a b => 256 * a + b) 0

/-- One acceptance step of the RFC 6979 HMAC-DRBG loop, fuelled; returns the
first candidate nonce in [1, n). -/
def rfc6979Loop : Nat → Bytes → Bytes → Nat
  | 0, _, _ => 0
  | f + 1, K, V =>
    let V1 := hmacSha256 K V
    let k := natOfBE V1
    if 1 ≤ k ∧ k < secpN then k
    else rfc6979Loop f (hmacSha256 K (V1 ++ [0x00])) (hmacSha256 (hmacSha256 K (V1 ++ [0x00])) V1)

/-- RFC 6979 deterministic nonce for secp256k1 with SHA-256 over a 32-byte
prehashed digest. -/
def rfc6979K (d : Nat) (h1 : Bytes) : Nat :=
  let x := be32 d
  let bo := be32 (natOfBE h1 % secpN)
  let V0 := List.replicate 32 0x01
  let K0 := List.replicate 32 0x00
  let K1 := hmacSha256 K0 (V0 ++ 0x00 :: (x ++ bo))
  let V1 := hmacSha256 K1 V0
  let K2 := hmacSha256 K1 (V1 ++ 0x01 :: (x ++ bo))
  let V2 := hmacSha256 K2 V1
  rfc6979Loop 100 K2 V2

/-- An ECDSA signature with its recovery byte, as produced by the k256 signer:
low-s normalised, v = 27 + recovery id. -/
structure Sig where
  r : Nat
  s : Nat
  v : Nat
  deriving DecidableEq, Repr

/-- Deterministic ECDSA signing of a 32-byte digest on secp256k1 (RFC 6979
nonce, low-s normalisation, recovery id from the nonce point). -/
def ecdsaSign (d : Nat) (digest : Bytes) : Sig :=
  let n := secpN
  let z := natOfBE digest % n
  let k := rfc6979K d digest
  let R := toAffine (jmul k secpG)
  let r := R.1 % n
  let s := invMod k n * ((z + r * d) % n) % n
  let recid := R.2 % 2 + (if n ≤ R.1 then 2 else 0)
  if n / 2 < s then { r := r, s := n - s, v := 27 + (recid ^^^ 1) }
  else { r := r, s := s, v := 27 + recid }

/-! ## EIP-712 typed encoding of the Message struct (derive attributes:
name "kiwinews", version "1.0.0", salt "kiwinews domain separator salt") -/

/-- UTF-8 encoding of one character. -/
def utf8Char (c : Char) : Bytes :=
  let n := c.toNat
  if n < 0x80 then [n]
  else if n < 0x800 then [0xC0 ||| (n >>> 6), 0x80 ||| (n &&& 0x3F)]
  else if n < 0x10000 then
    [0xE0 ||| (n >>> 12), 0x80 ||| ((n >>> 6) &&& 0x3F), 0x80 ||| (n &&& 0x3F)]
  else
    [0xF0 ||| (n >>> 18), 0x80 ||| ((n >>> 12) &&& 0x3F), 0x80 ||| ((n >>> 6) &&& 0x3F),
     0x80 ||| (n &&& 0x3F)]

/-- UTF-8 encoding of a string. -/
def utf8 (s : String) : Bytes := s.data.foldr (fun c acc => utf8Char c ++ acc) []

/-- The EIP-712 message struct from src/main.rs (field `type` is `r#type`
in the source; timestamp is a U256 holding the u64 Unix time). -/
structure Message where
  title : String
  href : String
  type : String
  timestamp : Nat
  deriving DecidableEq, Repr

/-- Domain separator: keccak over the encoded EIP712Domain with fields
name = "kiwinews", version = "1.0.0" and salt = keccak of the salt string
(the derive macro hashes the salt attribute into a bytes32). -/
def domainSeparator : Bytes :=
  keccak256 (keccak256 (utf8 "EIP712Domain(string name,string version,bytes32 salt)") ++
    keccak256 (utf8 "kiwinews") ++ keccak256 (utf8 "1.0.0") ++
    keccak256 (utf8 "kiwinews domain separator salt"))

/-- Type hash of the Message struct. -/
def messageTypeHash : Bytes :=
  keccak256 (utf8 "Message(string title,string href,string type,uint256 timestamp)")

/-- The canonical typed encoding of a Message: type hash followed by the
per-field EIP-712 encoding (strings hashed, uint256 as 32 bytes big-endian). -/
def encodeData (m : Message) : Bytes :=
  messageTypeHash ++ keccak256 (utf8 m.title) ++ keccak256 (utf8 m.href) ++
    keccak256 (utf8 m.type) ++ be32 m.timestamp

/-- EIP-712 struct hash of a Message. -/
def structHash (m : Message) : Bytes := keccak256 (encodeData m)

/-- The signed EIP-712 digest: keccak(0x19 0x01, domain separator, struct hash). -/
def eip712Digest (m : Message) : Bytes :=
  keccak256 (0x19 :: 0x01 :: (domainSeparator ++ structHash m))

/-- Embeds fn sign(wallet, message) of src/main.rs: sign_typed_data computes
the EIP-712 digest of the message and signs it with the wallet key. -/
def sign (wallet : Nat) (message : Message) : Sig := ecdsaSign wallet (eip712Digest message)

/-- Lowercase hex digit. -/
def hexDigit (n : Nat) : Char := if n < 10 then Char.ofNat (48 + n) else Char.ofNat (87 + n)

/-- Lowercase hex rendering of a byte string. -/
def bytesToHex (l : Bytes) : String :=
  String.mk (l.foldr (fun b acc => hexDigit (b / 16 % 16) :: hexDigit (b % 16) :: acc) [])

/-- The Display rendering of an ethers Signature: hex of r (32 bytes),
s (32 bytes) and the recovery byte v. -/
def sigToString (sig : Sig) : String := bytesToHex (be32 sig.r ++ be32 sig.s ++ [sig.v % 256])

/-- The 20-byte Ethereum address of a wallet key: last 20 bytes of the keccak
of the uncompressed public key coordinates. -/
def walletAddress (d : Nat) : Bytes :=
  let pub := toAffine (jmul d secpG)
  (keccak256 (be32 pub.1 ++ be32 pub.2)).drop 12

/-- EIP-55 checksummed rendering of a 20-byte address. -/
def checksumAddress (addr : Bytes) : String :=
  let hexs := bytesToHex addr
  let h := keccak256 (utf8 hexs)
  let cs := (List.range 40).map fun i =>
    let c := (hexs.data.getD i 'x').toNat
    let nib := (h.getD (i / 2) 0 >>> (if i % 2 = 0 then 4 else 0)) % 16
    if 97 ≤ c ∧ c ≤ 102 ∧ 8 ≤ nib then Char.ofNat (c - 32) else Char.ofNat c
  "0x" ++ String.mk cs

/-! ## Configuration store (fn read_config, write_config, overwrite_config) -/

/-- The Config struct of src/main.rs. -/
structure Config where
  endpoint : String
  use_ledger : Bool
  ledger_address_index : Nat
  path_to_keystore : String
  deriving DecidableEq, Repr

/-- impl Default for Config. -/
def Config.default : Config :=
  { use_ledger := true
    ledger_address_index := 0
    endpoint := "https://news.kiwistand.com/api/v1/messages"
    path_to_keystore := "<Path>" }

/-- The observable state of the on-disk configuration file at
the home directory path .kiwistand/config.toml. -/
inductive FileState where
  | missing
  | unreadable
  | unparseable
  | parsed (c : Config)
  deriving DecidableEq, Repr

/-- A JSON value as used in the wire payload (only strings and integers occur). -/
inductive JVal where
  | s (v : String)
  | n (v : Nat)
  deriving DecidableEq, Repr

/-- A flat JSON object: ordered key/value pairs. -/
abbrev JObj := List (String × JVal)

/-- Look up a key in a flat JSON object. -/
def jlookup (b : JObj) (k : String) : Option JVal := (b.find? fun p => p.1 == k).map (·.2)

/-- The externally visible actions of one invocation, in program order. -/
inductive Event where
  | configRead
  | configWrite (c : Config)
  | keystoreRead (path : String)
  | localSign
  | ledgerSign (index : Nat)
  | httpPost (endpoint : String) (body : JObj)
  deriving DecidableEq, Repr

/-- Whether an event is the HTTP POST of the submission client. -/
def Event.isPost : Event → Bool
  | .httpPost _ _ => true
  | _ => false

/-- Whether an event is a side effect (file write, key material access,
signing backend call or network call), as opposed to a plain read of the
configuration file. -/
def Event.isSideEffect : Event → Bool
  | .configRead => false
  | _ => true

/-- Embeds fn read_config: returns the parsed configuration if the file
exists; creates, persists and returns the defaults if it is missing; panics
(modelled as an error result) if an existing file cannot be read or parsed,
leaving the file untouched. -/
def read_config : FileState → List Event × Except String (Config × FileState)
  | .parsed c => ([.configRead], .ok (c, .parsed c))
  | .unreadable => ([.configRead], .error "Error: Couldn't read config file")
  | .unparseable => ([.configRead], .error "Error: Couldn't parse config file")
  | .missing => ([.configRead, .configWrite Config.default],
      .ok (Config.default, .parsed Config.default))

/-- Embeds fn write_config: overwrites the configuration file. -/
def write_config (c : Config) : List Event × FileState := ([.configWrite c], .parsed c)

/-- Embeds fn overwrite_config: writes the default configuration. -/
def overwrite_config : List Event × FileState :=
  ([.configWrite Config.default], .parsed Config.default)

/-! ## The environment of one invocation -/

/-- The ambient world of one CLI invocation: home directory, configuration
file state, wall clock, the keystore decryption oracle (the key recovered for
a given password, or failure), the ledger device, and the network. -/
structure Env where
  home : String
  fs : FileState
  now : Nat
  keystore : String → Option Nat
  ledgerSigner : Message → Nat → Sig
  net : Except Unit (Nat × String)

/-- The fixed keystore location used by fn read_key: the file named key
inside the .kiwistand directory of the home directory. -/
def key_path (home : String) : String := home ++ "/.kiwistand/key"

/-- Embeds fn read_key: decrypts the key store at the fixed path with the
given password; panics if reading or decryption fails. -/
def read_key (env : Env) (password : String) : List Event × Except String Nat :=
  ([.keystoreRead (key_path env.home)],
    match env.keystore password with
    | some w => .ok w
    | none => .error "Problem reading and/or decrypting the key store")

/-- The Message value built inside fn create_message. -/
def built_message (href title : String) (now : Nat) : Message :=
  { title := title, href := href, type := "amplify", timestamp := now }

/-- Embeds async fn create_message: builds the EIP-712 message from the
current Unix time, re-reads the configuration, signs with the ledger or the
decrypted local wallet, and returns the JSON wire payload. -/
def create_message (env : Env) (fs : FileState) (password : Option String)
    (href title : String) (ledger : Bool) :
    List Event × Except String (JObj × FileState) :=
  let timestamp := env.now
  let message := built_message href title timestamp
  match read_config fs with
  | (evs, .error e) => (evs, .error e)
  | (evs, .ok (config, fs1)) =>
    let sigRes : List Event × Except String Sig :=
      if ledger then
        ([Event.ledgerSign config.ledger_address_index],
          .ok (env.ledgerSigner message config.ledger_address_index))
      else
        match password with
        | none => ([], .error "password must be provided")
        | some pw =>
          match read_key env pw with
          | (evs2, .error e) => (evs2, .error e)
          | (evs2, .ok wallet) => (evs2 ++ [Event.localSign], .ok (sign wallet message))
    match sigRes with
    | (evs2, .error e) => (evs ++ evs2, .error e)
    | (evs2, .ok sig) =>
      (evs ++ evs2,
        .ok ([("title", .s message.title), ("href", .s message.href),
              ("type", .s message.type), ("timestamp", .n timestamp),
              ("signature", .s ("0x" ++ sigToString sig))], fs1))

/-- Embeds async fn send: re-reads the configuration and posts the payload
to the configured endpoint; panics if the request fails; the HTTP status of
a received response is never inspected and the response body is surfaced. -/
def send (env : Env) (fs : FileState) (message : JObj) :
    List Event × Except String (String × FileState) :=
  match read_config fs with
  | (evs, .error e) => (evs, .error e)
  | (evs, .ok (config, fs1)) =>
    match env.net with
    | .error _ => (evs ++ [.httpPost config.endpoint message], .error "Failed sending message")
    | .ok (_status, body) => (evs ++ [.httpPost config.endpoint message], .ok (body, fs1))

/-! ## The command dispatcher (fn main) -/

/-- The SubmitArgs struct. -/
structure SubmitArgs where
  href : Option String
  title : Option String
  password : Option String
  deriving DecidableEq, Repr

/-- The VoteArgs struct. -/
structure VoteArgs where
  href : Option String
  password : Option String
  deriving DecidableEq, Repr

/-- The ConfigArgs struct (the source field show is renamed show_ here). -/
structure ConfigArgs where
  show_ : Bool
  ledger : Option Bool
  ledger_address_index : Option Nat
  endpoint : Option String
  keystore : Option String
  reset : Bool
  deriving DecidableEq, Repr

/-- Embeds the Commands::Submit arm of fn main: reads the configuration,
requires href and title to be present, then builds, signs and sends the
message (passing no password down when the ledger backend is selected). -/
def submit_cmd (env : Env) (args : SubmitArgs) :
    List Event × Except String (String × FileState) :=
  match read_config env.fs with
  | (evs, .error e) => (evs, .error e)
  | (evs, .ok (config, fs1)) =>
    let ledger := config.use_ledger
    match args.href with
    | none => (evs, .error "href must be provided")
    | some href =>
      match args.title with
      | none => (evs, .error "title must be provided")
      | some title =>
        match create_message env fs1 (if ledger then none else args.password)
            href title ledger with
        | (evs2, .error e) => (evs ++ evs2, .error e)
        | (evs2, .ok (message, fs2)) =>
          match send env fs2 message with
          | (evs3, r) => (evs ++ evs2 ++ evs3, r)

/-- Embeds the Commands::Vote arm of fn main: identical to Submit except the
title is the empty string. -/
def vote_cmd (env : Env) (args : VoteArgs) :
    List Event × Except String (String × FileState) :=
  match read_config env.fs with
  | (evs, .error e) => (evs, .error e)
  | (evs, .ok (config, fs1)) =>
    let ledger := config.use_ledger
    match args.href with
    | none => (evs, .error "href must be provided")
    | some href =>
      match create_message env fs1 (if ledger then none else args.password)
          href "" ledger with
      | (evs2, .error e) => (evs ++ evs2, .error e)
      | (evs2, .ok (message, fs2)) =>
        match send env fs2 message with
        | (evs3, r) => (evs ++ evs2 ++ evs3, r)

/-- Embeds the Commands::Config arm of fn main: optionally resets to the
defaults, re-reads the configuration, then applies each supplied setter in
order, writing the file after each update. -/
def config_cmd (env : Env) (args : ConfigArgs) : List Event × Except String FileState :=
  let (evs0, fs0) :=
    if args.reset then ([Event.configWrite Config.default], FileState.parsed Config.default)
    else ([], env.fs)
  match read_config fs0 with
  | (evs1, .error e) => (evs0 ++ evs1, .error e)
  | (evs1, .ok (config0, fs1)) =>
    let (evs2, config2, fs2) :=
      match args.ledger with
      | none => ([], config0, fs1)
      | some l =>
        let c := { config0 with use_ledger := l }
        ([Event.configWrite c], c, FileState.parsed c)
    let (evs3, config3, fs3) :=
      match args.ledger_address_index with
      | none => ([], config2, fs2)
      | some i =>
        let c := { config2 with ledger_address_index := i }
        ([Event.configWrite c], c, FileState.parsed c)
    let (evs4, config4, fs4) :=
      match args.endpoint with
      | none => ([], config3, fs3)
      | some e =>
        let c := { config3 with endpoint := e }
        ([Event.configWrite c], c, FileState.parsed c)
    let (evs5, _config5, fs5) :=
      match args.keystore with
      | none => ([], config4, fs4)
      | some k =>
        let c := { config4 with path_to_keystore := k }
        ([Event.configWrite c], c, FileState.parsed c)
    (evs0 ++ evs1 ++ evs2 ++ evs3 ++ evs4 ++ evs5, .ok fs5)

/-- The private key of the compare_signatures unit test of src/main.rs. -/
def testKey : Nat := 0xad54bdeade5537fb0a553190159783e45d02d316a992db05cbed606d3ca36b39

/-- The message of the compare_signatures unit test of src/main.rs. -/
def testMessage : Message :=
  { title := "hello world", href := "https://example.com", type := "amplify",
    timestamp := 1676559616 }

/-- Whether an event belongs to a signing backend or the network: reading the
keystore, signing locally or on the device, or an HTTP request. -/
def Event.isSigningOrNetwork : Event → Bool
  | .keystoreRead _ => true
  | .localSign => true
  | .ledgerSign _ => true
  | .httpPost _ _ => true
  | _ => false

/-- A sample configuration selecting the ledger backend. -/
def cfgLedger : Config :=
  { endpoint := "http://localhost:8000/api/v1/messages", use_ledger := true,
    ledger_address_index := 0, path_to_keystore := "<Path>" }

/-- A sample configuration selecting the local keystore backend, with a
custom path_to_keystore value. -/
def cfgLocal : Config :=
  { endpoint := "https://ep.example/api", use_ledger := false,
    ledger_address_index := 1, path_to_keystore := "/custom/keystore.json" }

/-- A placeholder signature, used as the answer of a stub ledger device. -/
def sigStub : Sig := { r := 1, s := 2, v := 27 }

/-- A sample environment whose configuration selects the ledger backend. -/
def envLedger : Env :=
  { home := "/home/user", fs := .parsed cfgLedger, now := 1700000000,
    keystore := fun _ => none, ledgerSigner := fun _ _ => sigStub, net := .ok (200, "ok") }

/-- A sample environment whose configuration selects the local keystore
backend; the password pw decrypts to the wallet key 7. -/
def envLocal : Env :=
  { home := "/home/user", fs := .parsed cfgLocal, now := 1700000000,
    keystore := fun pw => if pw = "pw" then some 7 else none,
    ledgerSigner := fun _ _ => sigStub, net := .ok (200, "ok") }

/-! ## Claim theorems -/

/-- C5: read_config returns the persisted configuration when the file exists
and parses; when the file is missing it creates, persists and returns the
defaults; when an existing file cannot be parsed (or read) it fails with the
corrupt-config panic and performs no write, never replacing the file with
defaults. -/
theorem c5_load_contract (c : Config) :
    read_config (.parsed c) = ([.configRead], .ok (c, .parsed c)) ∧
    read_config .missing = ([.configRead, .configWrite Config.default],
      .ok (Config.default, .parsed Config.default)) ∧
    read_config .unparseable = ([.configRead], .error "Error: Couldn't parse config file") ∧
    read_config .unreadable = ([.configRead], .error "Error: Couldn't read config file") :=
  ⟨rfl, rfl, rfl, rfl⟩

/-- C7: on a parseable configuration, the submission client returns the
response body of any HTTP response without inspecting the status code, fails
with the network panic exactly when the request cannot be completed, and in
every case issues exactly one POST to the configured endpoint (no retry). -/
theorem c7_send_contract (home : String) (fs0 : FileState) (now : Nat)
    (ks : String → Option Nat) (ls : Message → Nat → Sig) (c : Config) (msg : JObj) :
    (∀ st body, send ⟨home, fs0, now, ks, ls, .ok (st, body)⟩ (.parsed c) msg =
      ([.configRead, .httpPost c.endpoint msg], .ok (body, .parsed c))) ∧
    (send ⟨home, fs0, now, ks, ls, .error ()⟩ (.parsed c) msg =
      ([.configRead, .httpPost c.endpoint msg], .error "Failed sending message")) ∧
    (∀ net, ((send ⟨home, fs0, now, ks, ls, net⟩ (.parsed c) msg).1.countP
      Event.isPost) = 1) := by
  refine ⟨fun st body => rfl, rfl, fun net => ?_⟩
  cases net <;> simp [send, read_config, List.countP, List.countP.go, Event.isPost]

/-- The config command line that only sets the ledger flag. -/
def setLedgerArgs (s b : Bool) : ConfigArgs :=
  ⟨s, some b, none, none, none, false⟩

/-- The config command line that only sets the ledger address index. -/
def setIndexArgs (s : Bool) (i : Nat) : ConfigArgs :=
  ⟨s, none, some i, none, none, false⟩

/-- The config command line that only sets the endpoint. -/
def setEndpointArgs (s : Bool) (ep : String) : ConfigArgs :=
  ⟨s, none, none, some ep, none, false⟩

/-- The config command line that only sets the keystore path. -/
def setKeystoreArgs (s : Bool) (kp : String) : ConfigArgs :=
  ⟨s, none, none, none, some kp, false⟩

/-- C10: applying a configuration command that sets exactly one field (the
ledger flag, the ledger address index, the endpoint, or the keystore path) to
a loadable configuration persists the previous configuration with only that
field replaced. -/
theorem c10_single_field_update (env : Env) (c : Config) (s b : Bool) (i : Nat)
    (ep kp : String) (h : env.fs = .parsed c) :
    (config_cmd env (setLedgerArgs s b)).2 = .ok (.parsed { c with use_ledger := b }) ∧
    (config_cmd env (setIndexArgs s i)).2 =
      .ok (.parsed { c with ledger_address_index := i }) ∧
    (config_cmd env (setEndpointArgs s ep)).2 = .ok (.parsed { c with endpoint := ep }) ∧
    (config_cmd env (setKeystoreArgs s kp)).2 =
      .ok (.parsed { c with path_to_keystore := kp }) := by
  obtain ⟨home, fs, now, ks, ls, net⟩ := env
  cases h
  exact ⟨rfl, rfl, rfl, rfl⟩

/-- Witness for C10 at a concrete configuration and environment. -/
theorem c10_single_field_update_witness :
    (config_cmd envLocal (setLedgerArgs false true)).2 =
      .ok (.parsed { cfgLocal with use_ledger := true }) :=
  (c10_single_field_update envLocal cfgLocal false true 0 "" "" rfl).1

/-- The trace of read_config contains no HTTP POST. -/
theorem read_config_no_post (fs : FileState) (ep : String) (b : JObj) :
    Event.httpPost ep b ∉ (read_config fs).1 := by
  cases fs <;> simp [read_config]

/-- The trace of create_message contains no HTTP POST: building and signing
never touch the network. -/
theorem create_message_no_post (env : Env) (fs : FileState) (pw : Option String)
    (href title : String) (ledger : Bool) (ep : String) (b : JObj) :
    Event.httpPost ep b ∉ (create_message env fs pw href title ledger).1 := by
  rcases fs with _ | _ | _ | c <;> rcases ledger with _ | _ <;> rcases pw with _ | pws <;>
    simp only [create_message, read_config, read_key] <;> try simp
  all_goals cases env.keystore pws <;> simp

/-- Every HTTP POST in the trace of send carries exactly the payload that was
passed in. -/
theorem send_post_body (env : Env) (fs : FileState) (msg : JObj) (ep : String) (b : JObj) :
    Event.httpPost ep b ∈ (send env fs msg).1 → b = msg := by
  cases fs <;> simp only [send, read_config] <;> cases h : env.net <;> simp

/-- A successful create_message returns the five-field payload built from the
message fields and some signature; with the local backend the signature is
the ECDSA signature, by the key the keystore decrypts to for the given
password, of the built EIP-712 message. -/
theorem create_message_ok_shape (env : Env) (fs : FileState) (pw : Option String)
    (href title : String) (ledger : Bool) (evs : List Event) (b : JObj) (fs1 : FileState)
    (h : create_message env fs pw href title ledger = (evs, .ok (b, fs1))) :
    ∃ sig : Sig,
      b = [("title", .s title), ("href", .s href), ("type", .s "amplify"),
        ("timestamp", .n env.now), ("signature", .s ("0x" ++ sigToString sig))] ∧
      (ledger = false → ∃ pws w, pw = some pws ∧ env.keystore pws = some w ∧
        sig = sign w (built_message href title env.now)) ∧
      (ledger = true → ∃ i, sig = env.ledgerSigner (built_message href title env.now) i) := by
  cases ledger with
  | true =>
    cases fs with
    | unreadable => simp [create_message, read_config] at h
    | unparseable => simp [create_message, read_config] at h
    | missing =>
      simp [create_message, read_config, built_message] at h
      obtain ⟨-, hb, -⟩ := h
      exact ⟨_, hb.symm, fun hf => Bool.noConfusion hf,
        fun _ => ⟨Config.default.ledger_address_index, rfl⟩⟩
    | parsed c =>
      simp [create_message, read_config, built_message] at h
      obtain ⟨-, hb, -⟩ := h
      exact ⟨_, hb.symm, fun hf => Bool.noConfusion hf, fun _ => ⟨c.ledger_address_index, rfl⟩⟩
  | false =>
    cases pw with
    | none => cases fs <;> simp [create_message, read_config] at h
    | some pws =>
      cases hk : env.keystore pws with
      | none => cases fs <;> simp [create_message, read_config, read_key, hk] at h
      | some w =>
        cases fs with
        | unreadable => simp [create_message, read_config] at h
        | unparseable => simp [create_message, read_config] at h
        | missing =>
          simp [create_message, read_config, read_key, hk, built_message] at h
          obtain ⟨-, hb, -⟩ := h
          exact ⟨_, hb.symm, fun _ => ⟨pws, w, rfl, hk, rfl⟩, fun ht => Bool.noConfusion ht⟩
        | parsed c =>
          simp [create_message, read_config, read_key, hk, built_message] at h
          obtain ⟨-, hb, -⟩ := h
          exact ⟨_, hb.symm, fun _ => ⟨pws, w, rfl, hk, rfl⟩, fun ht => Bool.noConfusion ht⟩

/-- C3: the vote arm builds the canonical message with an empty title and the
submit arm passes the title through unchanged: the message value is built
verbatim from the arguments, and every payload posted by a vote invocation
carries an empty title while every payload posted by a submit invocation
carries the given title. -/
theorem c3_vote_empty_submit_unchanged (env : Env) (c : Config) (va : VoteArgs)
    (sa : SubmitArgs) (href title : String) (hfs : env.fs = .parsed c)
    (hva : va.href = some href) (hsh : sa.href = some href) (hst : sa.title = some title)
    (hhref : href ≠ "") :
    (built_message href "" env.now).title = "" ∧
    (built_message href title env.now).title = title ∧
    (∀ ep b, Event.httpPost ep b ∈ (vote_cmd env va).1 →
      jlookup b "title" = some (.s "")) ∧
    (∀ ep b, Event.httpPost ep b ∈ (submit_cmd env sa).1 →
      jlookup b "title" = some (.s title)) := by
  refine ⟨rfl, rfl, ?_, ?_⟩
  · intro ep b hmem
    rw [vote_cmd, hfs, hva] at hmem
    simp only [read_config] at hmem
    have hnp := create_message_no_post env (.parsed c)
      (if c.use_ledger then none else va.password) href "" c.use_ledger ep b
    rcases hc : create_message env (.parsed c)
        (if c.use_ledger then none else va.password) href "" c.use_ledger with ⟨evs2, r2⟩
    rw [hc] at hmem hnp
    cases r2 with
    | error e =>
      dsimp only at hmem
      simp only [List.mem_cons, List.mem_append, List.singleton_append] at hmem
      rcases hmem with h1 | h1
      · exact Event.noConfusion h1
      · exact absurd h1 hnp
    | ok msgfs =>
      rcases msgfs with ⟨msg, fs2⟩
      dsimp only at hmem
      have hsp := send_post_body env fs2 msg ep b
      rcases hsend : send env fs2 msg with ⟨evs3, r3⟩
      rw [hsend] at hmem hsp
      simp only [List.mem_cons, List.mem_append, List.singleton_append] at hmem
      rcases hmem with (h1 | h1) | h1
      · exact Event.noConfusion h1
      · exact absurd h1 hnp
      · obtain ⟨sig, hshape, -, -⟩ := create_message_ok_shape env (.parsed c) _ href ""
          c.use_ledger evs2 msg fs2 hc
        rw [hsp h1, hshape]
        simp [jlookup]
  · intro ep b hmem
    rw [submit_cmd, hfs, hsh, hst] at hmem
    simp only [read_config] at hmem
    have hnp := create_message_no_post env (.parsed c)
      (if c.use_ledger then none else sa.password) href title c.use_ledger ep b
    rcases hc : create_message env (.parsed c)
        (if c.use_ledger then none else sa.password) href title c.use_ledger with ⟨evs2, r2⟩
    rw [hc] at hmem hnp
    cases r2 with
    | error e =>
      dsimp only at hmem
      simp only [List.mem_cons, List.mem_append, List.singleton_append] at hmem
      rcases hmem with h1 | h1
      · exact Event.noConfusion h1
      · exact absurd h1 hnp
    | ok msgfs =>
      rcases msgfs with ⟨msg, fs2⟩
      dsimp only at hmem
      have hsp := send_post_body env fs2 msg ep b
      rcases hsend : send env fs2 msg with ⟨evs3, r3⟩
      rw [hsend] at hmem hsp
      simp only [List.mem_cons, List.mem_append, List.singleton_append] at hmem
      rcases hmem with (h1 | h1) | h1
      · exact Event.noConfusion h1
      · exact absurd h1 hnp
      · obtain ⟨sig, hshape, -, -⟩ := create_message_ok_shape env (.parsed c) _ href title
          c.use_ledger evs2 msg fs2 hc
        rw [hsp h1, hshape]
        simp [jlookup]

/-- Witness for C3: a concrete ledger-backend vote invocation. -/
theorem c3_vote_empty_submit_unchanged_witness :
    (built_message "https://x" "" envLedger.now).title = "" ∧
    (∀ ep b, Event.httpPost ep b ∈ (vote_cmd envLedger ⟨some "https://x", none⟩).1 →
      jlookup b "title" = some (.s "")) := by
  have h := c3_vote_empty_submit_unchanged envLedger cfgLedger
    ⟨some "https://x", none⟩ ⟨some "https://x", some "t", none⟩ "https://x" "t"
    rfl rfl rfl rfl (by decide)
  exact ⟨h.1, h.2.2.1⟩

/-- C6: a successful create_message produces a flat payload with exactly the
five lowercase keys title, href, type, timestamp and signature, in this
order, where title and href are the signed message fields, type is the
constant amplify, timestamp is the Unix seconds used in the signed message,
and signature is the 0x-prefixed hex rendering of the computed signature (for
the local backend, the ECDSA signature of the built message by the key the
keystore decrypts to). -/
theorem c6_wire_payload (env : Env) (fs : FileState) (pw : Option String)
    (href title : String) (ledger : Bool) (evs : List Event) (b : JObj) (fs1 : FileState)
    (h : create_message env fs pw href title ledger = (evs, .ok (b, fs1))) :
    b.map Prod.fst = ["title", "href", "type", "timestamp", "signature"] ∧
    jlookup b "title" = some (.s title) ∧
    jlookup b "href" = some (.s href) ∧
    jlookup b "type" = some (.s "amplify") ∧
    jlookup b "timestamp" = some (.n env.now) ∧
    ∃ sig : Sig, jlookup b "signature" = some (.s ("0x" ++ sigToString sig)) ∧
      (ledger = false → ∃ pws w, pw = some pws ∧ env.keystore pws = some w ∧
        sig = sign w (built_message href title env.now)) := by
  obtain ⟨sig, hb, hlocal, -⟩ := create_message_ok_shape env fs pw href title ledger
    evs b fs1 h
  subst hb
  exact ⟨rfl, by simp [jlookup], by simp [jlookup], by simp [jlookup], by simp [jlookup],
    sig, by simp [jlookup], hlocal⟩

/-- Witness for C6: a concrete ledger-backend invocation of create_message. -/
theorem c6_wire_payload_witness :
    ([("title", JVal.s "t"), ("href", JVal.s "https://x"), ("type", JVal.s "amplify"),
        ("timestamp", JVal.n 1700000000),
        ("signature", JVal.s ("0x" ++ sigToString sigStub))].map Prod.fst =
      ["title", "href", "type", "timestamp", "signature"]) ∧
    jlookup [("title", JVal.s "t"), ("href", JVal.s "https://x"),
      ("type", JVal.s "amplify"), ("timestamp", JVal.n 1700000000),
      ("signature", JVal.s ("0x" ++ sigToString sigStub))] "type" = some (.s "amplify") := by
  have h := c6_wire_payload envLedger (.parsed cfgLedger) none "https://x" "t" true
    [Event.configRead, Event.ledgerSign 0]
    [("title", JVal.s "t"), ("href", JVal.s "https://x"), ("type", JVal.s "amplify"),
      ("timestamp", JVal.n 1700000000), ("signature", JVal.s ("0x" ++ sigToString sigStub))]
    (.parsed cfgLedger) rfl
  exact ⟨h.1, h.2.2.2.1⟩

/-- C8: a submit or vote invocation against a loadable configuration that
selects the local keystore backend and carries no password fails with a
validation panic and performs no side effect at all: the trace contains only
configuration reads, and in particular no file write, no keystore access, no
signing and no network call. -/
theorem c8_no_password_fails_early (env : Env) (c : Config) (sa : SubmitArgs)
    (va : VoteArgs) (hfs : env.fs = .parsed c) (hl : c.use_ledger = false)
    (hsp : sa.password = none) (hvp : va.password = none) :
    ((submit_cmd env sa).2 = .error "href must be provided" ∨
     (submit_cmd env sa).2 = .error "title must be provided" ∨
     (submit_cmd env sa).2 = .error "password must be provided") ∧
    (∀ ev ∈ (submit_cmd env sa).1, ev.isSideEffect = false) ∧
    ((vote_cmd env va).2 = .error "href must be provided" ∨
     (vote_cmd env va).2 = .error "password must be provided") ∧
    (∀ ev ∈ (vote_cmd env va).1, ev.isSideEffect = false) := by
  obtain ⟨sh, st, sp⟩ := sa
  obtain ⟨vh, vp⟩ := va
  dsimp only at hsp hvp
  subst hsp hvp
  refine ⟨?_, ?_, ?_, ?_⟩ <;>
    rcases sh with _ | href <;> rcases st with _ | title <;> rcases vh with _ | vhref <;>
    simp [submit_cmd, vote_cmd, create_message, read_config, hfs, hl,
      Event.isSideEffect]

/-- Witness for C8: a concrete local-backend invocation without a password. -/
theorem c8_no_password_fails_early_witness :
    ((submit_cmd envLocal ⟨some "https://x", some "t", none⟩).2 =
        .error "href must be provided" ∨
     (submit_cmd envLocal ⟨some "https://x", some "t", none⟩).2 =
        .error "title must be provided" ∨
     (submit_cmd envLocal ⟨some "https://x", some "t", none⟩).2 =
        .error "password must be provided") ∧
    (∀ ev ∈ (submit_cmd envLocal ⟨some "https://x", some "t", none⟩).1,
      ev.isSideEffect = false) := by
  have h := c8_no_password_fails_early envLocal cfgLocal
    ⟨some "https://x", some "t", none⟩ ⟨some "https://x", none⟩ rfl rfl rfl rfl
  exact ⟨h.1, h.2.1⟩

/-- Counterexample to C2: with an empty (but present) href string, both
submit and vote proceed normally instead of failing: the invocation succeeds,
the signing backend is invoked, and exactly one network POST is made.  The
dispatcher only rejects an absent href, never an empty one. -/
theorem c2_counterexample :
    (vote_cmd envLedger ⟨some "", none⟩).2 = .ok ("ok", .parsed cfgLedger) ∧
    Event.ledgerSign 0 ∈ (vote_cmd envLedger ⟨some "", none⟩).1 ∧
    (vote_cmd envLedger ⟨some "", none⟩).1.countP Event.isPost = 1 ∧
    (submit_cmd envLedger ⟨some "", some "x", none⟩).2 = .ok ("ok", .parsed cfgLedger) ∧
    Event.ledgerSign 0 ∈ (submit_cmd envLedger ⟨some "", some "x", none⟩).1 ∧
    (submit_cmd envLedger ⟨some "", some "x", none⟩).1.countP Event.isPost = 1 :=
  ⟨rfl, by decide, by decide, rfl, by decide, by decide⟩

/-- C2 amended: a submit or vote invocation with a MISSING href argument
fails with the href validation panic before any signing backend is invoked
and before any network call is made; under a loadable configuration the
error is exactly the href panic.  (An empty href string, by contrast, is
accepted, as the counterexample shows.) -/
theorem c2_amended_missing_href (env : Env) (sa : SubmitArgs) (va : VoteArgs)
    (hs : sa.href = none) (hv : va.href = none) :
    (∃ e, (submit_cmd env sa).2 = .error e) ∧
    (∀ ev ∈ (submit_cmd env sa).1, ev.isSigningOrNetwork = false) ∧
    (∃ e, (vote_cmd env va).2 = .error e) ∧
    (∀ ev ∈ (vote_cmd env va).1, ev.isSigningOrNetwork = false) ∧
    (∀ c, env.fs = .parsed c →
      (submit_cmd env sa).2 = .error "href must be provided" ∧
      (vote_cmd env va).2 = .error "href must be provided") := by
  obtain ⟨home, fs, now, ks, ls, net⟩ := env
  dsimp only at hs hv ⊢
  refine ⟨?_, ?_, ?_, ?_, ?_⟩
  · cases fs <;> simp [submit_cmd, read_config, hs]
  · cases fs <;> simp [submit_cmd, read_config, hs, Event.isSigningOrNetwork]
  · cases fs <;> simp [vote_cmd, read_config, hv]
  · cases fs <;> simp [vote_cmd, read_config, hv, Event.isSigningOrNetwork]
  · intro c hc
    cases fs with
    | parsed c2 =>
      cases hc
      exact ⟨by simp [submit_cmd, read_config, hs], by simp [vote_cmd, read_config, hv]⟩
    | missing => exact FileState.noConfusion hc
    | unreadable => exact FileState.noConfusion hc
    | unparseable => exact FileState.noConfusion hc

/-- Witness for the amended C2 at a concrete invocation with no href. -/
theorem c2_amended_missing_href_witness :
    (submit_cmd envLedger ⟨none, some "t", none⟩).2 = .error "href must be provided" ∧
    (vote_cmd envLedger ⟨none, none⟩).2 = .error "href must be provided" :=
  (c2_amended_missing_href envLedger ⟨none, some "t", none⟩ ⟨none, none⟩ rfl rfl).2.2.2.2
    cfgLedger rfl

/-- Counterexample to C4: in a local-backend run whose configuration sets
path_to_keystore to a custom path, the keystore that is read and decrypted is
the fixed file .kiwistand/key under the home directory, and the configured
path is never touched. -/
theorem c4_counterexample :
    envLocal.fs = .parsed cfgLocal ∧
    cfgLocal.path_to_keystore = "/custom/keystore.json" ∧
    Event.keystoreRead "/home/user/.kiwistand/key" ∈
      (submit_cmd envLocal ⟨some "https://x", some "t", some "pw"⟩).1 ∧
    Event.keystoreRead "/custom/keystore.json" ∉
      (submit_cmd envLocal ⟨some "https://x", some "t", some "pw"⟩).1 :=
  ⟨rfl, rfl, by decide, by decide⟩

/-- C4 amended: the local keystore signer always decrypts the key material at
the fixed path .kiwistand/key inside the home directory, using the supplied
password (a failing decryption for that password is the keystore panic); the
configured path_to_keystore field plays no role in any keystore access. -/
theorem c4_amended_fixed_keystore_path (env : Env) (args : SubmitArgs) (c : Config)
    (pw href title : String) (hfs : env.fs = .parsed c) (hl : c.use_ledger = false)
    (hh : args.href = some href) (ht : args.title = some title)
    (hp : args.password = some pw) :
    (∀ p, Event.keystoreRead p ∈ (submit_cmd env args).1 → p = key_path env.home) ∧
    Event.keystoreRead (key_path env.home) ∈ (submit_cmd env args).1 ∧
    (env.keystore pw = none →
      (submit_cmd env args).2 = .error "Problem reading and/or decrypting the key store") := by
  rw [submit_cmd, hfs, hh, ht]
  simp only [read_config, hl]
  rw [create_message.eq_def]
  simp only [read_config, hp, read_key, if_neg (show ¬(false = true) from by decide)]
  rcases hkv : env.keystore pw with _ | w
  · refine ⟨?_, by simp, fun _ => by simp⟩
    intro p hp2
    simp at hp2
    exact hp2
  · simp only [send, read_config]
    refine ⟨?_, by simp, fun hcontra => absurd hcontra (by simp [hkv])⟩
    intro p hp2
    simp at hp2
    rcases hp2 with h | h
    · exact h
    · rcases hnv : env.net with u | stbody <;> rw [hnv] at h <;> simp at h

/-- Witness for the amended C4 at a concrete local-backend invocation. -/
theorem c4_amended_fixed_keystore_path_witness :
    Event.keystoreRead (key_path envLocal.home) ∈
      (submit_cmd envLocal ⟨some "https://x", some "t", some "pw"⟩).1 :=
  (c4_amended_fixed_keystore_path envLocal ⟨some "https://x", some "t", some "pw"⟩
    cfgLocal "pw" "https://x" "t" rfl rfl rfl rfl rfl).2.1

/-! ## C9: injectivity of the typed encoding -/

/-- Little-endian positional value of a byte string. -/
def bytesVal (l : Bytes) : Nat := l.foldr (fun b acc => b + 256 * acc) 0

/-- The positional value of a byte string is bounded by 256 to its length. -/
theorem bytesVal_lt (l : Bytes) (h : ∀ b ∈ l, b < 256) : bytesVal l < 256 ^ l.length := by
  induction l with
  | nil => simp [bytesVal]
  | cons b t ih =>
    have hb : b < 256 := h b (List.mem_cons_self b t)
    have ht := ih fun x hx => h x (List.mem_cons_of_mem _ hx)
    simp only [bytesVal, List.foldr] at ht ⊢
    simp only [List.length_cons, pow_succ]
    omega

/-- The positional value is injective on byte strings of equal length. -/
theorem bytesVal_inj : ∀ l1 l2 : Bytes, l1.length = l2.length → (∀ b ∈ l1, b < 256) →
    (∀ b ∈ l2, b < 256) → bytesVal l1 = bytesVal l2 → l1 = l2 := by
  intro l1
  induction l1 with
  | nil =>
    intro l2 hlen _ _ _
    cases l2 with
    | nil => rfl
    | cons b2 t2 => simp at hlen
  | cons b t ih =>
    intro l2 hlen h1 h2 hv
    cases l2 with
    | nil => simp at hlen
    | cons b2 t2 =>
      simp only [bytesVal, List.foldr] at hv
      have hbb : b < 256 := h1 b (List.mem_cons_self b t)
      have hbb2 : b2 < 256 := h2 b2 (List.mem_cons_self b2 t2)
      have hb : b = b2 := by omega
      have hrec : t.foldr (fun b acc => b + 256 * acc) 0 =
          t2.foldr (fun b acc => b + 256 * acc) 0 := by omega
      have hlen2 : t.length = t2.length := by simpa using hlen
      rw [hb, ih t2 hlen2 (fun x hx => h1 x (List.mem_cons_of_mem _ hx))
        (fun x hx => h2 x (List.mem_cons_of_mem _ hx)) hrec]

/-- Every byte of a squeezed lane is below 256. -/
theorem laneBytes_lt (x : Nat) : ∀ b ∈ laneBytes x, b < 256 := by
  intro b hb
  simp only [laneBytes, List.mem_cons, List.not_mem_nil, or_false] at hb
  rcases hb with h | h | h | h | h | h | h | h <;> subst h <;>
    exact Nat.mod_lt _ (by norm_num)

/-- The keccak-256 digest has 32 bytes. -/
theorem keccak256_length (m : Bytes) : (keccak256 m).length = 32 := by
  simp [keccak256, laneBytes]

/-- Every byte of a keccak-256 digest is below 256. -/
theorem keccak256_lt (m : Bytes) : ∀ b ∈ keccak256 m, b < 256 := by
  intro b hb
  simp only [keccak256, List.mem_append] at hb
  rcases hb with ((h | h) | h) | h <;> exact laneBytes_lt _ b h

/-- The big-endian uint256 encoding has 32 bytes. -/
theorem be32_length (x : Nat) : (be32 x).length = 32 := by simp [be32]

/-- Every byte of the big-endian uint256 encoding is below 256. -/
theorem be32_lt (x : Nat) : ∀ b ∈ be32 x, b < 256 := by
  intro b hb
  rw [be32, List.mem_map] at hb
  obtain ⟨i, hlt, hi⟩ := hb
  omega

/-- The Message type hash has 32 bytes. -/
theorem messageTypeHash_length : messageTypeHash.length = 32 := keccak256_length _

/-- Every byte of the Message type hash is below 256. -/
theorem messageTypeHash_lt : ∀ b ∈ messageTypeHash, b < 256 := keccak256_lt _

/-- The typed encoding of a message has 160 bytes. -/
theorem encodeData_length (m : Message) : (encodeData m).length = 160 := by
  simp only [encodeData, List.length_append, messageTypeHash_length, keccak256_length,
    be32_length]

/-- Every byte of the typed encoding is below 256. -/
theorem encodeData_lt (m : Message) : ∀ b ∈ encodeData m, b < 256 := by
  intro b hb
  simp only [encodeData, List.mem_append] at hb
  rcases hb with ((((h | h) | h) | h) | h)
  · exact messageTypeHash_lt b h
  · exact keccak256_lt _ b h
  · exact keccak256_lt _ b h
  · exact keccak256_lt _ b h
  · exact be32_lt _ b h

/-- A family of messages with pairwise distinct titles and equal href, kind
and timestamp; used to exhibit a collision of the typed encoding. -/
def c9Probe (n : Nat) : Message :=
  { title := String.mk (List.replicate n 'a'), href := "h", type := "amplify",
    timestamp := 0 }

/-- Counterexample to C9: the typed encoding is NOT injective over
(title, href) at a fixed timestamp and kind: two messages with different
titles share one 160-byte typed encoding, because infinitely many titles map
into a fixed-length encoding.  (No concrete collision is computable, but its
existence refutes the claimed equivalence.) -/
theorem c9_counterexample :
    ∃ m1 m2 : Message, m1.timestamp = m2.timestamp ∧ m1.type = m2.type ∧
      ¬(m1.title = m2.title ∧ m1.href = m2.href) ∧ encodeData m1 = encodeData m2 := by
  have hfin : ∀ n, bytesVal (encodeData (c9Probe n)) < 256 ^ 160 := by
    intro n
    have h := bytesVal_lt (encodeData (c9Probe n)) (encodeData_lt _)
    rwa [encodeData_length] at h
  obtain ⟨a, b, hab, heq⟩ := Finite.exists_ne_map_eq_of_infinite
    fun n : ℕ => (⟨bytesVal (encodeData (c9Probe n)), hfin n⟩ : Fin (256 ^ 160))
  have henc : encodeData (c9Probe a) = encodeData (c9Probe b) := by
    have hv := congrArg Fin.val heq
    exact bytesVal_inj _ _ (by rw [encodeData_length, encodeData_length])
      (encodeData_lt _) (encodeData_lt _) hv
  refine ⟨c9Probe a, c9Probe b, rfl, rfl, fun hcon => ?_, henc⟩
  apply hab
  have hdata : List.replicate a 'a' = List.replicate b 'a' := congrArg String.data hcon.1
  have := congrArg List.length hdata
  simpa using this

/-- C9 amended: the typed encoding is deterministic (equal title and href at
equal timestamp and kind give equal encodings), and two messages at equal
timestamp and kind have distinct encodings whenever the keccak-256 hashes of
their titles differ or the hashes of their hrefs differ.  Full injectivity
over the infinitely many (title, href) pairs is impossible for a fixed-length
encoding and holds only up to keccak collisions. -/
theorem c9_amended (m1 m2 : Message) (hts : m1.timestamp = m2.timestamp)
    (hty : m1.type = m2.type) :
    ((m1.title = m2.title ∧ m1.href = m2.href) → encodeData m1 = encodeData m2) ∧
    ((keccak256 (utf8 m1.title) ≠ keccak256 (utf8 m2.title) ∨
      keccak256 (utf8 m1.href) ≠ keccak256 (utf8 m2.href)) →
      encodeData m1 ≠ encodeData m2) := by
  constructor
  · rintro ⟨ht, hh⟩
    obtain ⟨t1, h1, y1, s1⟩ := m1
    obtain ⟨t2, h2, y2, s2⟩ := m2
    simp only at ht hh hts hty
    rw [ht, hh, hts, hty]
  · intro hne heq
    rw [encodeData, encodeData] at heq
    obtain ⟨h3, -⟩ := List.append_inj' heq (by rw [be32_length, be32_length])
    obtain ⟨h4, -⟩ := List.append_inj' h3 (by rw [keccak256_length, keccak256_length])
    obtain ⟨h5, hkh⟩ := List.append_inj' h4 (by rw [keccak256_length, keccak256_length])
    obtain ⟨-, hkt⟩ := List.append_inj h5 rfl
    rcases hne with hn | hn
    · exact hn hkt
    · exact hn hkh

/-- Witness for the amended C9: two concrete messages with different titles
have different typed encodings, via distinct title hashes. -/
theorem c9_amended_witness :
    encodeData { title := "a", href := "h", type := "amplify", timestamp := 0 } ≠
      encodeData { title := "b", href := "h", type := "amplify", timestamp := 0 } :=
  (c9_amended { title := "a", href := "h", type := "amplify", timestamp := 0 }
    { title := "b", href := "h", type := "amplify", timestamp := 0 } rfl rfl).2
    (Or.inl (by decide))

/-! ## C1: the known-vector regression of the compare_signatures test -/

set_option maxHeartbeats 0 in
/-- C1: with the fixed private key of the compare_signatures unit test (whose
EIP-55 checksummed address is 0x0f6A79A579658E401E0B81c6dde1F2cd51d97176),
signing the canonical typed message with title "hello world", href
"https://example.com", type "amplify" and timestamp 1676559616 through the
local-wallet signing function produces exactly the known signature hex
rendering. -/
theorem c1_known_vector :
    checksumAddress (walletAddress testKey) =
      "0x0f6A79A579658E401E0B81c6dde1F2cd51d97176" ∧
    sigToString (sign testKey testMessage) =
      "1df128dfe1f86df4e20ecc6ebbd586e0ab56e3fc8d0db9210422c3c765633ad8793af68aa232cf39cc3f75ea18f03260258f7276c2e0d555f98e1cf16672dd201c" := by
  constructor
  · decide
  · decide

end Kiwi